import Mathlib

/-!
Verification development for a small REST façade over a console-network
account API (`src/_psnawp.py`, `src/routes.py`, `src/app.py`).

The Python code is shallowly embedded: Python dictionaries become
association lists over an inductive `Value` type with Python truthiness,
the lazily-fetching `PSNUserProfile` accessor becomes explicit state
passing over an `AccessorState`, the upstream `psnawp_api` library becomes
an abstract `UserClient` environment whose fetches return
`Except String _` (an `error` models a raised exception), and each FastAPI
route handler becomes a function producing a `Response`.
-/

set_option autoImplicit false

namespace PsnApi

/-- A Python value as it occurs in this code base: strings, integers,
booleans, lists, dictionaries and `None`. -/
inductive Value where
  | vstr (s : String)
  | vint (n : Int)
  | vbool (b : Bool)
  | vlist (l : List Value)
  | vdict (d : List (String × Value))
  | vnone

/-- Python truthiness of a `Value` (`bool(v)`): empty strings, zero,
`False`, empty lists, empty dicts and `None` are falsy. -/
def truthy : Value → Bool
  | .vstr s => !(s == "")
  | .vint n => !(n == 0)
  | .vbool b => b
  | .vlist l => !l.isEmpty
  | .vdict d => !d.isEmpty
  | .vnone => false

/-- Python equality test `v == 0` (note `False == 0` is `True` in Python). -/
def pyEqZero : Value → Bool
  | .vint n => n == 0
  | .vbool b => !b
  | _ => false

/-- Python equality test `v == False` (note `0 == False` is `True` in Python). -/
def pyEqFalse : Value → Bool
  | .vbool b => !b
  | .vint n => n == 0
  | _ => false

/-- The filter of `get_full_profile`: keep `v` iff `v or v == 0 or v == False`. -/
def keepValue (v : Value) : Bool :=
  truthy v || pyEqZero v || pyEqFalse v

/-- Python dict lookup `d[k]` as an `Option`: first entry with key `k`. -/
def dLookup (d : List (String × Value)) (k : String) : Option Value :=
  match d with
  | [] => none
  | (k1, v) :: rest => if k1 == k then some v else dLookup rest k

/-- Python `d.get(k, default)`. -/
def dGetD (d : List (String × Value)) (k : String) (dflt : Value) : Value :=
  (dLookup d k).getD dflt

/-- Python `k in d`. -/
def dMem (d : List (String × Value)) (k : String) : Bool :=
  (dLookup d k).isSome

/-- Python subscript `d[k]`: raises `KeyError` when the key is absent
(`str(e)` for a `KeyError` renders the missing key; we model the raised
text as `"KeyError: " ++ k`). -/
def dIndex (d : List (String × Value)) (k : String) : Except String Value :=
  match dLookup d k with
  | some v => .ok v
  | none => .error ("KeyError: " ++ k)

/-- The raw trophy summary object returned by `user.trophy_summary()`
(attributes used by the code: `trophy_level`, `progress`, `tier`,
`earned_trophies.{platinum,gold,silver,bronze}`). -/
structure TrophySummaryObj where
  trophy_level : Int
  progress : Int
  tier : Int
  platinum : Int
  gold : Int
  silver : Int
  bronze : Int
  deriving DecidableEq, Repr

/-- A trophy-title record of the upstream iterator, as projected by the
`/trophy-titles` route. A record is `Except`-valued: `.error` models a
record whose attribute projection raises. -/
structure TitleData where
  title_id : String
  title_name : String
  platform : String
  earned_total : Int
  defined_total : Int
  progress : Int
  deriving DecidableEq, Repr

/-- A played-game statistics record of the upstream iterator, as projected
by the `/games` route. -/
structure GameData where
  name : String
  title_id : String
  category : String
  image_url : String
  play_count : Int
  first_played : String
  last_played : String
  play_duration : String
  deriving DecidableEq, Repr

/-- The upstream `psnawp_api` world for one online id: each fetch either
returns data (`.ok`) or raises (`.error msg`). `fetchUser` is the account
lookup performed by the `user` property; `accountIdVal` is the account id
it yields on success. -/
structure UserClient where
  fetchUser : Except String Unit
  accountIdVal : String
  fetchProfile : Except String (List (String × Value))
  fetchPresence : Except String (List (String × Value))
  fetchFriendship : Except String (List (String × Value))
  fetchTrophySummary : Except String TrophySummaryObj
  fetchIsBlocked : Except String Bool
  fetchTrophyTitles : Except String (List (Except String TitleData))
  fetchTitleStats : Except String (List (Except String GameData))

/-- The mutable fields of a `PSNUserProfile` instance. `trophy_summary_data
= some none` models the `{}` stored after a failed trophy-summary fetch
(attribute access on it raises, which the derived getters catch). -/
structure AccessorState where
  online_id : String
  userFetched : Bool
  account_id : Option String
  profile_data : Option (List (String × Value))
  presence_data : Option (List (String × Value))
  friendship_data : Option (List (String × Value))
  trophy_summary_data : Option (Option TrophySummaryObj)

/-- A freshly constructed `PSNUserProfile(online_id=...)`: nothing fetched. -/
def initState (oid : String) : AccessorState :=
  { online_id := oid, userFetched := false, account_id := none,
    profile_data := none, presence_data := none, friendship_data := none,
    trophy_summary_data := none }

/-- The `user` property: fetches the `PSNUser` once (also recording
`_account_id`), re-raising any lookup failure; the `Nat` counts account
lookups performed by this call. -/
def userGet (env : UserClient) (s : AccessorState) :
    Except String AccessorState × Nat :=
  if s.userFetched then (.ok s, 0)
  else
    match env.fetchUser with
    | .ok _ => (.ok { s with userFetched := true, account_id := some env.accountIdVal }, 1)
    | .error e => (.error e, 1)

/-- The `account_id` property: memoized; propagates a lookup failure. -/
def accountIdGet (env : UserClient) (s : AccessorState) :
    Except String (String × AccessorState) :=
  match s.account_id with
  | some a => .ok (a, s)
  | none =>
    match userGet env s with
    | (.error e, _) => .error e
    | (.ok s1, _) => .ok (s1.account_id.getD env.accountIdVal, s1)

/-- The `profile` property: memoized fetch of `user.profile()`; any
exception (including the account lookup raising inside the `try`) is
caught and `{}` is stored. The `Nat` counts profile fetches performed. -/
def profileGet (env : UserClient) (s : AccessorState) :
    (List (String × Value)) × AccessorState × Nat :=
  match s.profile_data with
  | some d => (d, s, 0)
  | none =>
    match userGet env s with
    | (.error _, _) => ([], { s with profile_data := some [] }, 0)
    | (.ok s1, _) =>
      match env.fetchProfile with
      | .ok d => (d, { s1 with profile_data := some d }, 1)
      | .error _ => ([], { s1 with profile_data := some [] }, 1)

/-- The `presence` property: memoized fetch of `user.get_presence()`. -/
def presenceGet (env : UserClient) (s : AccessorState) :
    (List (String × Value)) × AccessorState × Nat :=
  match s.presence_data with
  | some d => (d, s, 0)
  | none =>
    match userGet env s with
    | (.error _, _) => ([], { s with presence_data := some [] }, 0)
    | (.ok s1, _) =>
      match env.fetchPresence with
      | .ok d => (d, { s1 with presence_data := some d }, 1)
      | .error _ => ([], { s1 with presence_data := some [] }, 1)

/-- The `friendship` property: memoized fetch of `user.friendship()`. -/
def friendshipGet (env : UserClient) (s : AccessorState) :
    (List (String × Value)) × AccessorState × Nat :=
  match s.friendship_data with
  | some d => (d, s, 0)
  | none =>
    match userGet env s with
    | (.error _, _) => ([], { s with friendship_data := some [] }, 0)
    | (.ok s1, _) =>
      match env.fetchFriendship with
      | .ok d => (d, { s1 with friendship_data := some d }, 1)
      | .error _ => ([], { s1 with friendship_data := some [] }, 1)

/-- The `trophy_summary` property: memoized fetch of
`user.trophy_summary()`; a failed fetch stores `{}` (modelled `some none`). -/
def trophySummaryGet (env : UserClient) (s : AccessorState) :
    (Option TrophySummaryObj) × AccessorState × Nat :=
  match s.trophy_summary_data with
  | some d => (d, s, 0)
  | none =>
    match userGet env s with
    | (.error _, _) => (none, { s with trophy_summary_data := some none }, 0)
    | (.ok s1, _) =>
      match env.fetchTrophySummary with
      | .ok t => (some t, { s1 with trophy_summary_data := some (some t) }, 1)
      | .error _ => (none, { s1 with trophy_summary_data := some none }, 1)

/-- Model of `get_about_me`: `self.profile.get("aboutMe", "")`. -/
def getAboutMe (env : UserClient) (s : AccessorState) : Value × AccessorState :=
  let r := profileGet env s
  (dGetD r.1 "aboutMe" (.vstr ""), r.2.1)

/-- Model of `get_avatars`: `self.profile.get("avatars", [])`. -/
def getAvatars (env : UserClient) (s : AccessorState) : Value × AccessorState :=
  let r := profileGet env s
  (dGetD r.1 "avatars" (.vlist []), r.2.1)

/-- Model of `get_languages`: `self.profile.get("languages", [])`. -/
def getLanguages (env : UserClient) (s : AccessorState) : Value × AccessorState :=
  let r := profileGet env s
  (dGetD r.1 "languages" (.vlist []), r.2.1)

/-- Model of `get_is_plus`: `self.profile.get("isPlus", False)`. -/
def getIsPlus (env : UserClient) (s : AccessorState) : Value × AccessorState :=
  let r := profileGet env s
  (dGetD r.1 "isPlus" (.vbool false), r.2.1)

/-- Model of `get_is_officially_verified`: `self.profile.get("isOfficiallyVerified", False)`. -/
def getIsOfficiallyVerified (env : UserClient) (s : AccessorState) : Value × AccessorState :=
  let r := profileGet env s
  (dGetD r.1 "isOfficiallyVerified" (.vbool false), r.2.1)

/-- A nested read `self.presence.get(outer, \x7b\x7d).get(inner, "")`, with
the surrounding `try/except` returning `""`: when the outer value is not a
dict the attribute access raises and `""` is returned. -/
def presenceNested (d : List (String × Value)) (outer inner : String) : Value :=
  match dLookup d outer with
  | none => .vstr ""
  | some (.vdict innerDict) => dGetD innerDict inner (.vstr "")
  | some _ => .vstr ""

/-- Model of `get_online_status`. -/
def getOnlineStatus (env : UserClient) (s : AccessorState) : Value × AccessorState :=
  let r := presenceGet env s
  (presenceNested r.1 "primaryPlatformInfo" "onlineStatus", r.2.1)

/-- Model of `get_platform`. -/
def getPlatform (env : UserClient) (s : AccessorState) : Value × AccessorState :=
  let r := presenceGet env s
  (presenceNested r.1 "primaryPlatformInfo" "platform", r.2.1)

/-- Model of `get_last_online_date`. -/
def getLastOnlineDate (env : UserClient) (s : AccessorState) : Value × AccessorState :=
  let r := presenceGet env s
  (presenceNested r.1 "primaryPlatformInfo" "lastOnlineDate", r.2.1)

/-- Model of `get_availability`: `self.presence.get("availability", "")`. -/
def getAvailability (env : UserClient) (s : AccessorState) : Value × AccessorState :=
  let r := presenceGet env s
  (dGetD r.1 "availability" (.vstr ""), r.2.1)

/-- Model of `get_friends_count`: `self.friendship.get("friendsCount", 0)`. -/
def getFriendsCount (env : UserClient) (s : AccessorState) : Value × AccessorState :=
  let r := friendshipGet env s
  (dGetD r.1 "friendsCount" (.vint 0), r.2.1)

/-- Model of `get_mutual_friends_count`: `self.friendship.get("mutualFriendsCount", 0)`. -/
def getMutualFriendsCount (env : UserClient) (s : AccessorState) : Value × AccessorState :=
  let r := friendshipGet env s
  (dGetD r.1 "mutualFriendsCount" (.vint 0), r.2.1)

/-- Model of `get_friend_relation`: `self.friendship.get("friendRelation", "")`. -/
def getFriendRelation (env : UserClient) (s : AccessorState) : Value × AccessorState :=
  let r := friendshipGet env s
  (dGetD r.1 "friendRelation" (.vstr ""), r.2.1)

/-- Model of `get_is_blocking`: `self.user.is_blocked()` with every exception
(including the account lookup) caught and replaced by `False`. -/
def getIsBlocking (env : UserClient) (s : AccessorState) : Value × AccessorState :=
  match userGet env s with
  | (.error _, _) => (.vbool false, s)
  | (.ok s1, _) =>
    match env.fetchIsBlocked with
    | .ok b => (.vbool b, s1)
    | .error _ => (.vbool false, s1)

/-- Model of `get_trophy_level`: `self.trophy_summary.trophy_level` with exceptions
(attribute access on the `\x7b\x7d` failure default) replaced by `0`. -/
def getTrophyLevel (env : UserClient) (s : AccessorState) : Value × AccessorState :=
  let r := trophySummaryGet env s
  match r.1 with
  | some t => (.vint t.trophy_level, r.2.1)
  | none => (.vint 0, r.2.1)

/-- Model of `get_trophy_progress`. -/
def getTrophyProgress (env : UserClient) (s : AccessorState) : Value × AccessorState :=
  let r := trophySummaryGet env s
  match r.1 with
  | some t => (.vint t.progress, r.2.1)
  | none => (.vint 0, r.2.1)

/-- Model of `get_trophy_tier`. -/
def getTrophyTier (env : UserClient) (s : AccessorState) : Value × AccessorState :=
  let r := trophySummaryGet env s
  match r.1 with
  | some t => (.vint t.tier, r.2.1)
  | none => (.vint 0, r.2.1)

/-- Model of `get_earned_trophies`: the four per-rank counts, or all zeros when the
trophy summary could not be fetched. -/
def getEarnedTrophies (env : UserClient) (s : AccessorState) : Value × AccessorState :=
  let r := trophySummaryGet env s
  match r.1 with
  | some t =>
    (.vdict [("platinum", .vint t.platinum), ("gold", .vint t.gold),
             ("silver", .vint t.silver), ("bronze", .vint t.bronze)], r.2.1)
  | none =>
    (.vdict [("platinum", .vint 0), ("gold", .vint 0),
             ("silver", .vint 0), ("bronze", .vint 0)], r.2.1)

/-- The dict literal built by `get_full_profile`, before the final filter;
evaluation order follows the source. `get_account_id()` propagates an
account-lookup failure, which `get_full_profile` lets escape to callers. -/
def assembleProfile (env : UserClient) (s : AccessorState) :
    Except String ((List (String × Value)) × AccessorState) :=
  match accountIdGet env s with
  | .error e => .error e
  | .ok (acct, s1) =>
    let r1 := getAboutMe env s1
    let r2 := getAvatars env r1.2
    let r3 := getLanguages env r2.2
    let r4 := getIsPlus env r3.2
    let r5 := getIsOfficiallyVerified env r4.2
    let r6 := getOnlineStatus env r5.2
    let r7 := getPlatform env r6.2
    let r8 := getLastOnlineDate env r7.2
    let r9 := getAvailability env r8.2
    let r10 := getFriendsCount env r9.2
    let r11 := getMutualFriendsCount env r10.2
    let r12 := getFriendRelation env r11.2
    let r13 := getIsBlocking env r12.2
    let r14 := getTrophyLevel env r13.2
    let r15 := getTrophyProgress env r14.2
    let r16 := getTrophyTier env r15.2
    let r17 := getEarnedTrophies env r16.2
    .ok ([("online_id", .vstr s.online_id),
          ("account_id", .vstr acct),
          ("about_me", r1.1),
          ("avatars", r2.1),
          ("languages", r3.1),
          ("is_plus", r4.1),
          ("is_officially_verified", r5.1),
          ("online_status", r6.1),
          ("platform", r7.1),
          ("last_online", r8.1),
          ("availability", r9.1),
          ("friends_count", r10.1),
          ("mutual_friends_count", r11.1),
          ("friend_relation", r12.1),
          ("is_blocking", r13.1),
          ("trophy_level", r14.1),
          ("trophy_progress", r15.1),
          ("trophy_tier", r16.1),
          ("earned_trophies", r17.1)], r17.2)

/-- Model of `get_full_profile`: the assembled dict with falsy values removed,
keeping explicit `0` and `False`
(`\x7bk: v for k, v in profile.items() if v or v == 0 or v == False\x7d`). -/
def getFullProfile (env : UserClient) (s : AccessorState) :
    Except String ((List (String × Value)) × AccessorState) :=
  match assembleProfile env s with
  | .error e => .error e
  | .ok (a, s1) => .ok (a.filter (fun kv => keepValue kv.2), s1)

/-- Model of `get_trophy_titles`: `self.user.trophy_titles(limit=...)` with any
exception (including the account lookup) caught and `[]` returned. The
`limit` is applied by the upstream library, so it is part of
`fetchTrophyTitles`. -/
def getTrophyTitlesM (env : UserClient) (s : AccessorState) :
    (List (Except String TitleData)) × AccessorState :=
  match userGet env s with
  | (.error _, _) => ([], s)
  | (.ok s1, _) =>
    match env.fetchTrophyTitles with
    | .ok ts => (ts, s1)
    | .error _ => ([], s1)

/-- Model of `get_title_stats`: `self.user.title_stats(limit=...)` with any
exception caught and `[]` returned. -/
def getTitleStatsM (env : UserClient) (s : AccessorState) :
    (List (Except String GameData)) × AccessorState :=
  match userGet env s with
  | (.error _, _) => ([], s)
  | (.ok s1, _) =>
    match env.fetchTitleStats with
    | .ok ts => (ts, s1)
    | .error _ => ([], s1)

/-! ## The identifier-keyed memoization (`@lru_cache(maxsize=100)` on `get_psn_user`) -/

/-- State of the `lru_cache` wrapping `get_psn_user`: entries most-recent
first, each mapping an online id to an accessor-instance identity; `nextId`
numbers freshly constructed `PSNUserProfile` instances. -/
structure CacheState where
  entries : List (String × Nat)
  nextId : Nat
  deriving DecidableEq, Repr

def emptyCache : CacheState := { entries := [], nextId := 0 }

/-- Lookup in the recency list. -/
def lruLookup (k : String) : List (String × Nat) → Option Nat
  | [] => none
  | (k1, v) :: rest => if k1 == k then some v else lruLookup k rest

/-- Model of `get_psn_user(online_id)` through its `lru_cache(maxsize=100)`: a hit
returns the memoized instance and moves it to most-recent; a miss
constructs a fresh `PSNUserProfile` (which never fetches anything) and,
past capacity 100, evicts the least-recently-used entry. -/
def getPsnUser (k : String) (c : CacheState) : Nat × CacheState :=
  match lruLookup k c.entries with
  | some v =>
    (v, { c with entries := (k, v) :: c.entries.filter (fun p => !(p.1 == k)) })
  | none =>
    let v := c.nextId
    let es := (k, v) :: c.entries
    (v, { entries := if es.length > 100 then es.dropLast else es, nextId := v + 1 })

/-! ## The process-wide client handle (`PSNClient` and the `user` property) -/

/-- Process state for client construction: `PSNClient._instance` (by
client identity) and a count of `PSNAWP(...)` constructions performed. -/
structure ProcState where
  singleton : Option Nat
  constructedClients : Nat
  deriving DecidableEq, Repr

def initProc : ProcState := { singleton := none, constructedClients := 0 }

/-- Model of `PSNClient()`: constructs the singleton on first use from the `NPSSO`
environment variable, raising `ValueError` when it is unset or empty
(`if not npsso`); later calls return the already-constructed instance. -/
def psnClientNew (npsso : Option String) (p : ProcState) :
    Except String (Nat × ProcState) :=
  match p.singleton with
  | some c => .ok (c, p)
  | none =>
    if npsso = none ∨ npsso = some "" then
      .error "NPSSO environment variable must be set"
    else
      .ok (p.constructedClients,
           { singleton := some p.constructedClients,
             constructedClients := p.constructedClients + 1 })

/-- The client construction performed inside the `user` property:
`PSNAWP(os.getenv("NPSSO"))` — a direct instance every time, never
consulting the `PSNClient` singleton. -/
def userFetchClient (p : ProcState) : Nat × ProcState :=
  (p.constructedClients, { p with constructedClients := p.constructedClients + 1 })

/-! ## The HTTP route layer (`routes.py`) -/

/-- An HTTP response: status code and JSON body. -/
structure Response where
  status : Nat
  body : Value

/-- A 404 with `detail` as FastAPI renders an `HTTPException`. -/
def err404 (msg : String) : Response :=
  { status := 404, body := .vdict [("detail", .vstr msg)] }

/-- The set `AVAILABLE_USER_FIELDS` (a Python set; modelled as the list of its
members, queried only by membership). -/
def AVAILABLE_USER_FIELDS : List String :=
  ["online_id", "account_id", "about_me", "avatars",
   "languages", "is_plus", "is_officially_verified",
   "online_status", "platform", "last_online", "availability",
   "friends_count", "mutual_friends_count", "friend_relation",
   "is_blocking",
   "trophy_level", "trophy_progress", "trophy_tier", "earned_trophies"]

/-- Dict insertion for a Python dict display: a repeated key overwrites in
place, a new key appends. -/
def dInsert (d : List (String × Value)) (k : String) (v : Value) :
    List (String × Value) :=
  if d.any (fun p => p.1 == k) then
    d.map (fun p => if p.1 == k then (k, v) else p)
  else d ++ [(k, v)]

/-- A Python dict comprehension over a list of key-value pairs. -/
def pyDictOf (pairs : List (String × Value)) : List (String × Value) :=
  pairs.foldl (fun d kv => dInsert d kv.1 kv.2) []

/-- The comprehension `\x7bk: profile[k] for k in valid_fields if k in profile\x7d` where
`valid_fields = [f for f in fields if f in AVAILABLE_USER_FIELDS]`. -/
def projectFields (profile : List (String × Value)) (fields : List String) :
    List (String × Value) :=
  let valid := fields.filter (fun f => AVAILABLE_USER_FIELDS.contains f)
  pyDictOf ((valid.filter (fun k => dMem profile k)).map
    (fun k => (k, dGetD profile k .vnone)))

/-- Route `GET /users/\x7bonline_id\x7d`: full or field-filtered profile; any
exception becomes 404 `User not found: ...`. The handler obtains its
accessor from `get_psn_user`; a fresh accessor state stands for it here,
since fetch results are functions of the environment alone. -/
def getUserProfileRoute (env : UserClient) (oid : String)
    (fields : Option (List String)) : Response :=
  match getFullProfile env (initState oid) with
  | .error e => err404 ("User not found: " ++ e)
  | .ok (profile, _) =>
    match fields with
    | some fs =>
      if fs.isEmpty then { status := 200, body := .vdict profile }
      else { status := 200, body := .vdict (projectFields profile fs) }
    | none => { status := 200, body := .vdict profile }

/-- The dict literal of `/users/\x7bonline_id\x7d/basic`, evaluated field
by field; a stripped key raises `KeyError`. -/
def buildBasic (p : List (String × Value)) : Except String Value :=
  match dIndex p "online_id" with
  | .error e => .error e
  | .ok v1 =>
    match dIndex p "about_me" with
    | .error e => .error e
    | .ok v2 =>
      match dIndex p "avatars" with
      | .error e => .error e
      | .ok v3 =>
        .ok (.vdict [("online_id", v1), ("about_me", v2), ("avatars", v3)])

/-- Route `GET /users/\x7bonline_id\x7d/basic`. -/
def basicRoute (env : UserClient) (oid : String) : Response :=
  match getFullProfile env (initState oid) with
  | .error e => err404 ("User not found: " ++ e)
  | .ok (profile, _) =>
    match buildBasic profile with
    | .error e => err404 ("User not found: " ++ e)
    | .ok v => { status := 200, body := v }

/-- The dict literal of `/users/\x7bonline_id\x7d/presence`. -/
def buildPresence (p : List (String × Value)) : Except String Value :=
  match dIndex p "online_id" with
  | .error e => .error e
  | .ok v1 =>
    match dIndex p "online_status" with
    | .error e => .error e
    | .ok v2 =>
      match dIndex p "platform" with
      | .error e => .error e
      | .ok v3 =>
        match dIndex p "last_online" with
        | .error e => .error e
        | .ok v4 =>
          match dIndex p "availability" with
          | .error e => .error e
          | .ok v5 =>
            .ok (.vdict [("online_id", v1), ("online_status", v2),
                         ("platform", v3), ("last_online", v4),
                         ("availability", v5)])

/-- Route `GET /users/\x7bonline_id\x7d/presence`. -/
def presenceRoute (env : UserClient) (oid : String) : Response :=
  match getFullProfile env (initState oid) with
  | .error e => err404 ("User not found: " ++ e)
  | .ok (profile, _) =>
    match buildPresence profile with
    | .error e => err404 ("User not found: " ++ e)
    | .ok v => { status := 200, body := v }

/-- The dict literal of `/users/\x7bonline_id\x7d/friends`. -/
def buildFriends (p : List (String × Value)) : Except String Value :=
  match dIndex p "online_id" with
  | .error e => .error e
  | .ok v1 =>
    match dIndex p "friends_count" with
    | .error e => .error e
    | .ok v2 =>
      match dIndex p "mutual_friends_count" with
      | .error e => .error e
      | .ok v3 =>
        match dIndex p "friend_relation" with
        | .error e => .error e
        | .ok v4 =>
          .ok (.vdict [("online_id", v1), ("friends_count", v2),
                       ("mutual_friends_count", v3), ("friend_relation", v4)])

/-- Route `GET /users/\x7bonline_id\x7d/friends`. -/
def friendsRoute (env : UserClient) (oid : String) : Response :=
  match getFullProfile env (initState oid) with
  | .error e => err404 ("User not found: " ++ e)
  | .ok (profile, _) =>
    match buildFriends profile with
    | .error e => err404 ("User not found: " ++ e)
    | .ok v => { status := 200, body := v }

/-- The dict literal of `/users/\x7bonline_id\x7d/trophies`; note
`profile.get("trophy_tier", 0)` uses a default instead of raising. -/
def buildTrophies (p : List (String × Value)) : Except String Value :=
  match dIndex p "online_id" with
  | .error e => .error e
  | .ok v1 =>
    match dIndex p "trophy_level" with
    | .error e => .error e
    | .ok v2 =>
      match dIndex p "trophy_progress" with
      | .error e => .error e
      | .ok v3 =>
        let v4 := dGetD p "trophy_tier" (.vint 0)
        match dIndex p "earned_trophies" with
        | .error e => .error e
        | .ok v5 =>
          .ok (.vdict [("online_id", v1), ("trophy_level", v2),
                       ("trophy_progress", v3), ("trophy_tier", v4),
                       ("earned_trophies", v5)])

/-- Route `GET /users/\x7bonline_id\x7d/trophies`. -/
def trophiesRoute (env : UserClient) (oid : String) : Response :=
  match getFullProfile env (initState oid) with
  | .error e => err404 ("User not found: " ++ e)
  | .ok (profile, _) =>
    match buildTrophies profile with
    | .error e => err404 ("User not found: " ++ e)
    | .ok v => { status := 200, body := v }

/-- One entry of a `POST /users/batch` request. -/
structure UserReq where
  online_id : String
  fields : Option (List String)

/-- The per-entry work of the batch loop body: a profile (possibly
field-filtered) on success, the placeholder on any exception. -/
def perUserResult (world : String → UserClient) (r : UserReq) : Value :=
  match getFullProfile (world r.online_id) (initState r.online_id) with
  | .error _ =>
    .vdict [("online_id", .vstr r.online_id), ("error", .vstr "User not found")]
  | .ok (profile, _) =>
    match r.fields with
    | some fs =>
      if fs.isEmpty then .vdict profile
      else .vdict (projectFields profile fs)
    | none => .vdict profile

/-- The `for user_req in request.users` loop with its `results.append`. -/
def batchLoop (world : String → UserClient) (reqs : List UserReq)
    (results : List Value) : List Value :=
  match reqs with
  | [] => results
  | r :: rest => batchLoop world rest (results ++ [perUserResult world r])

/-- Route `POST /users/batch`: always 200 with one result per requested user. -/
def batchRoute (world : String → UserClient) (reqs : List UserReq) : Response :=
  { status := 200, body := .vlist (batchLoop world reqs []) }

/-- Route `GET /users?query=...`: single-result search; any exception yields an
empty list with status 200 (the bare `except` returns `[]`). -/
def searchUsersRoute (env : UserClient) (query : String)
    (fields : Option (List String)) : Response :=
  match getFullProfile env (initState query) with
  | .error _ => { status := 200, body := .vlist [] }
  | .ok (profile, _) =>
    match fields with
    | some fs =>
      if fs.isEmpty then { status := 200, body := .vlist [.vdict profile] }
      else { status := 200, body := .vlist [.vdict (projectFields profile fs)] }
    | none => { status := 200, body := .vlist [.vdict profile] }

/-- Route `GET /users/\x7bonline_id\x7d/raw-profile`: returns `user.profile`;
the `profile` property swallows every failure into `\x7b\x7d`, so the
handler's `except` branch is unreachable and the route always answers 200. -/
def rawProfileRoute (env : UserClient) (oid : String) : Response :=
  let r := profileGet env (initState oid)
  { status := 200, body := .vdict r.1 }

/-- Projection of one trophy-title record into the response dict; `.error`
models an attribute access raising for that record. -/
def projectTitle (t : Except String TitleData) : Except String Value :=
  match t with
  | .error e => .error e
  | .ok d =>
    .ok (.vdict [("title_id", .vstr d.title_id),
                 ("title_name", .vstr d.title_name),
                 ("platform", .vstr d.platform),
                 ("trophies_earned", .vint d.earned_total),
                 ("trophies_total", .vint d.defined_total),
                 ("progress", .vint d.progress)])

/-- The `for title in trophy_titles` loop: append the projection, or skip
the record (logging only) when it raises. -/
def titleLoop (ts : List (Except String TitleData)) (acc : List Value) :
    List Value :=
  match ts with
  | [] => acc
  | t :: rest =>
    match projectTitle t with
    | .ok v => titleLoop rest (acc ++ [v])
    | .error _ => titleLoop rest acc

/-- Route `GET /users/\x7bonline_id\x7d/trophy-titles`: `get_trophy_titles`
swallows its own failures into `[]`, so the handler always answers 200. -/
def trophyTitlesRoute (env : UserClient) (oid : String) : Response :=
  let r := getTrophyTitlesM env (initState oid)
  let titleList := titleLoop r.1 []
  { status := 200,
    body := .vdict [("online_id", .vstr oid),
                    ("total_titles", .vint titleList.length),
                    ("titles", .vlist titleList)] }

/-- Projection of one played-game record into the response dict. -/
def projectGame (t : Except String GameData) : Except String Value :=
  match t with
  | .error e => .error e
  | .ok d =>
    .ok (.vdict [("name", .vstr d.name),
                 ("title_id", .vstr d.title_id),
                 ("platform", .vstr d.category),
                 ("image_url", .vstr d.image_url),
                 ("play_count", .vint d.play_count),
                 ("first_played", .vstr d.first_played),
                 ("last_played", .vstr d.last_played),
                 ("play_duration", .vstr d.play_duration)])

/-- The `for title in title_iterator` loop of `/games`. -/
def gameLoop (ts : List (Except String GameData)) (acc : List Value) :
    List Value :=
  match ts with
  | [] => acc
  | t :: rest =>
    match projectGame t with
    | .ok v => gameLoop rest (acc ++ [v])
    | .error _ => gameLoop rest acc

/-- Route `GET /users/\x7bonline_id\x7d/games`: `get_title_stats` swallows its
own failures into `[]`, so the handler always answers 200. -/
def gamesRoute (env : UserClient) (oid : String) : Response :=
  let r := getTitleStatsM env (initState oid)
  let gameList := gameLoop r.1 []
  { status := 200,
    body := .vdict [("online_id", .vstr oid),
                    ("total_games", .vint gameList.length),
                    ("games", .vlist gameList)] }

/-! ## Concrete worlds used by the closed instances -/

/-- A concrete upstream world with a successful account lookup. -/
def envA : UserClient :=
  { fetchUser := .ok (), accountIdVal := "acct-1",
    fetchProfile := .ok [("aboutMe", .vstr "hello"), ("isPlus", .vbool true)],
    fetchPresence := .ok [],
    fetchFriendship := .ok [("friendsCount", .vint 3)],
    fetchTrophySummary := .error "HTTP 500",
    fetchIsBlocked := .ok false,
    fetchTrophyTitles := .ok [],
    fetchTitleStats := .ok [] }

/-- A concrete upstream world where every fetch raises. -/
def envFail : UserClient :=
  { fetchUser := .error "boom", accountIdVal := "",
    fetchProfile := .error "boom",
    fetchPresence := .error "boom",
    fetchFriendship := .error "boom",
    fetchTrophySummary := .error "boom",
    fetchIsBlocked := .error "boom",
    fetchTrophyTitles := .error "boom",
    fetchTitleStats := .error "boom" }

/-- A concrete world: "alice" resolves, every other id raises. -/
def batchWorld : String → UserClient :=
  fun oid => if oid == "alice" then envA else envFail

/-- A concrete title list: two well-formed records around one that raises. -/
def titleSample : List (Except String TitleData) :=
  [.ok { title_id := "T1", title_name := "Game One", platform := "PS5",
         earned_total := 10, defined_total := 40, progress := 25 },
   .error "missing attribute",
   .ok { title_id := "T2", title_name := "Game Two", platform := "PS4",
         earned_total := 5, defined_total := 50, progress := 10 }]

/-- A concrete world where the account lookup succeeds and the trophy-title
iterator yields `titleSample`. -/
def envTitles : UserClient :=
  { fetchUser := .ok (), accountIdVal := "acct-2",
    fetchProfile := .ok [], fetchPresence := .ok [], fetchFriendship := .ok [],
    fetchTrophySummary := .error "boom", fetchIsBlocked := .ok false,
    fetchTrophyTitles := .ok titleSample,
    fetchTitleStats := .ok [.error "bad record"] }

/-- A concrete world for an existing user whose profile, presence and
friendship data are all empty dicts, so every derived string field is `""`. -/
def envEmpty : UserClient :=
  { fetchUser := .ok (), accountIdVal := "acct-3",
    fetchProfile := .ok [], fetchPresence := .ok [], fetchFriendship := .ok [],
    fetchTrophySummary := .error "HTTP 500", fetchIsBlocked := .ok false,
    fetchTrophyTitles := .ok [], fetchTitleStats := .ok [] }

/-- The dict `get_full_profile` assembles (before filtering) under
`envEmpty` for the id "carol". -/
def emptyAssembled : List (String × Value) :=
  [("online_id", .vstr "carol"), ("account_id", .vstr "acct-3"),
   ("about_me", .vstr ""), ("avatars", .vlist []), ("languages", .vlist []),
   ("is_plus", .vbool false), ("is_officially_verified", .vbool false),
   ("online_status", .vstr ""), ("platform", .vstr ""),
   ("last_online", .vstr ""), ("availability", .vstr ""),
   ("friends_count", .vint 0), ("mutual_friends_count", .vint 0),
   ("friend_relation", .vstr ""), ("is_blocking", .vbool false),
   ("trophy_level", .vint 0), ("trophy_progress", .vint 0),
   ("trophy_tier", .vint 0),
   ("earned_trophies", .vdict [("platinum", .vint 0), ("gold", .vint 0),
                               ("silver", .vint 0), ("bronze", .vint 0)])]

/-! ## Helper lemmas -/

/-- The key order of the dict literal in `get_full_profile`. -/
def profileKeyOrder : List String :=
  ["online_id", "account_id", "about_me", "avatars", "languages",
   "is_plus", "is_officially_verified", "online_status", "platform",
   "last_online", "availability", "friends_count", "mutual_friends_count",
   "friend_relation", "is_blocking", "trophy_level", "trophy_progress",
   "trophy_tier", "earned_trophies"]

theorem keepValue_ne_dropped {v : Value} (h : keepValue v = true) :
    v ≠ .vstr "" ∧ v ≠ .vlist [] ∧ v ≠ .vnone := by
  refine ⟨?_, ?_, ?_⟩ <;> rintro rfl <;> simp [keepValue, truthy, pyEqZero, pyEqFalse] at h

theorem keepValue_of_zero_or_false {v : Value}
    (h : v = .vint 0 ∨ v = .vbool false) : keepValue v = true := by
  rcases h with rfl | rfl <;> rfl

theorem keepValue_vint (n : Int) : keepValue (.vint n) = true := by
  by_cases h : n = 0 <;> simp [keepValue, truthy, pyEqZero, h]

theorem keepValue_vstr (s : String) (h : s ≠ "") : keepValue (.vstr s) = true := by
  simp [keepValue, truthy, h]

theorem keepValue_vdict_ne (d : List (String × Value)) (h : d ≠ []) :
    keepValue (.vdict d) = true := by
  simp [keepValue, truthy, List.isEmpty_iff, h]

theorem accountIdGet_ok (env : UserClient) (s : AccessorState)
    (h : env.fetchUser = .ok ()) :
    ∃ acct s1, accountIdGet env s = .ok (acct, s1) := by
  unfold accountIdGet userGet
  rcases ha : s.account_id with _ | a
  · rcases hu : s.userFetched <;> simp [h]
  · simp

theorem assembleProfile_ok (env : UserClient) (s : AccessorState)
    (h : env.fetchUser = .ok ()) :
    ∃ a s1, assembleProfile env s = .ok (a, s1) := by
  obtain ⟨acct, s2, hacc⟩ := accountIdGet_ok env s h
  unfold assembleProfile
  rw [hacc]
  exact ⟨_, _, rfl⟩

/-- Claim C1: on a successful account lookup, the full-profile mapping is
the assembled dict filtered through `v or v == 0 or v == False`: it never
contains an empty string, an empty list or `None`, and it retains every
assembled key whose value is `0` or `False`. -/
theorem claim1_full_profile_filtering (env : UserClient) (s : AccessorState)
    (h : env.fetchUser = .ok ()) :
    ∃ a d s1,
      assembleProfile env s = .ok (a, s1) ∧
      getFullProfile env s = .ok (d, s1) ∧
      d = a.filter (fun kv => keepValue kv.2) ∧
      (∀ kv ∈ d, kv.2 ≠ .vstr "" ∧ kv.2 ≠ .vlist [] ∧ kv.2 ≠ .vnone) ∧
      (∀ kv ∈ a, (kv.2 = .vint 0 ∨ kv.2 = .vbool false) → kv ∈ d) := by
  obtain ⟨a, s1, ha⟩ := assembleProfile_ok env s h
  refine ⟨a, a.filter (fun kv => keepValue kv.2), s1, ha, ?_, rfl, ?_, ?_⟩
  · unfold getFullProfile
    rw [ha]
  · intro kv hkv
    exact keepValue_ne_dropped (List.mem_filter.mp hkv).2
  · intro kv hkv hv
    exact List.mem_filter.mpr ⟨hkv, keepValue_of_zero_or_false hv⟩

theorem claim1_full_profile_filtering_holds :
    ∃ a d s1,
      assembleProfile envA (initState "alice") = .ok (a, s1) ∧
      getFullProfile envA (initState "alice") = .ok (d, s1) ∧
      d = a.filter (fun kv => keepValue kv.2) ∧
      (∀ kv ∈ d, kv.2 ≠ .vstr "" ∧ kv.2 ≠ .vlist [] ∧ kv.2 ≠ .vnone) ∧
      (∀ kv ∈ a, (kv.2 = .vint 0 ∨ kv.2 = .vbool false) → kv ∈ d) :=
  claim1_full_profile_filtering envA (initState "alice") rfl

/-! ## Getter memoization (C4) -/

theorem profileGet_state (env : UserClient) (s : AccessorState) :
    ((profileGet env s).2.1).profile_data = some (profileGet env s).1 ∧
    (profileGet env s).2.2 ≤ 1 := by
  unfold profileGet
  rcases hp : s.profile_data with _ | d
  · rcases hu : userGet env s with ⟨u, n⟩
    rcases u with e | s1 <;> rcases hf : env.fetchProfile with e2 | d2 <;> simp [hu, hf]
  · simp [hp]

theorem presenceGet_state (env : UserClient) (s : AccessorState) :
    ((presenceGet env s).2.1).presence_data = some (presenceGet env s).1 ∧
    (presenceGet env s).2.2 ≤ 1 := by
  unfold presenceGet
  rcases hp : s.presence_data with _ | d
  · rcases hu : userGet env s with ⟨u, n⟩
    rcases u with e | s1 <;> rcases hf : env.fetchPresence with e2 | d2 <;> simp [hu, hf]
  · simp [hp]

theorem friendshipGet_state (env : UserClient) (s : AccessorState) :
    ((friendshipGet env s).2.1).friendship_data = some (friendshipGet env s).1 ∧
    (friendshipGet env s).2.2 ≤ 1 := by
  unfold friendshipGet
  rcases hp : s.friendship_data with _ | d
  · rcases hu : userGet env s with ⟨u, n⟩
    rcases u with e | s1 <;> rcases hf : env.fetchFriendship with e2 | d2 <;> simp [hu, hf]
  · simp [hp]

theorem trophySummaryGet_state (env : UserClient) (s : AccessorState) :
    ((trophySummaryGet env s).2.1).trophy_summary_data = some (trophySummaryGet env s).1 ∧
    (trophySummaryGet env s).2.2 ≤ 1 := by
  unfold trophySummaryGet
  rcases hp : s.trophy_summary_data with _ | d
  · rcases hu : userGet env s with ⟨u, n⟩
    rcases u with e | s1 <;> rcases hf : env.fetchTrophySummary with e2 | d2 <;> simp [hu, hf]
  · simp [hp]

theorem profileGet_stable (env : UserClient) (s : AccessorState) :
    profileGet env ((profileGet env s).2.1) =
      ((profileGet env s).1, (profileGet env s).2.1, 0) := by
  generalize hr : profileGet env s = r
  have h : (r.2.1).profile_data = some r.1 := by
    rw [← hr]; exact (profileGet_state env s).1
  unfold profileGet
  rw [h]

theorem presenceGet_stable (env : UserClient) (s : AccessorState) :
    presenceGet env ((presenceGet env s).2.1) =
      ((presenceGet env s).1, (presenceGet env s).2.1, 0) := by
  generalize hr : presenceGet env s = r
  have h : (r.2.1).presence_data = some r.1 := by
    rw [← hr]; exact (presenceGet_state env s).1
  unfold presenceGet
  rw [h]

theorem friendshipGet_stable (env : UserClient) (s : AccessorState) :
    friendshipGet env ((friendshipGet env s).2.1) =
      ((friendshipGet env s).1, (friendshipGet env s).2.1, 0) := by
  generalize hr : friendshipGet env s = r
  have h : (r.2.1).friendship_data = some r.1 := by
    rw [← hr]; exact (friendshipGet_state env s).1
  unfold friendshipGet
  rw [h]

theorem trophySummaryGet_stable (env : UserClient) (s : AccessorState) :
    trophySummaryGet env ((trophySummaryGet env s).2.1) =
      ((trophySummaryGet env s).1, (trophySummaryGet env s).2.1, 0) := by
  generalize hr : trophySummaryGet env s = r
  have h : (r.2.1).trophy_summary_data = some r.1 := by
    rw [← hr]; exact (trophySummaryGet_state env s).1
  unfold trophySummaryGet
  rw [h]

theorem profileGet_default (env : UserClient) (s : AccessorState)
    (h0 : s.profile_data = none) (e : String) (he : env.fetchProfile = .error e) :
    (profileGet env s).1 = [] := by
  unfold profileGet
  rcases hu : userGet env s with ⟨u, n⟩
  rcases u with e2 | s1 <;> simp [h0, hu, he]

theorem presenceGet_default (env : UserClient) (s : AccessorState)
    (h0 : s.presence_data = none) (e : String) (he : env.fetchPresence = .error e) :
    (presenceGet env s).1 = [] := by
  unfold presenceGet
  rcases hu : userGet env s with ⟨u, n⟩
  rcases u with e2 | s1 <;> simp [h0, hu, he]

theorem friendshipGet_default (env : UserClient) (s : AccessorState)
    (h0 : s.friendship_data = none) (e : String) (he : env.fetchFriendship = .error e) :
    (friendshipGet env s).1 = [] := by
  unfold friendshipGet
  rcases hu : userGet env s with ⟨u, n⟩
  rcases u with e2 | s1 <;> simp [h0, hu, he]

theorem trophySummaryGet_default (env : UserClient) (s : AccessorState)
    (h0 : s.trophy_summary_data = none) (e : String)
    (he : env.fetchTrophySummary = .error e) :
    (trophySummaryGet env s).1 = none := by
  unfold trophySummaryGet
  rcases hu : userGet env s with ⟨u, n⟩
  rcases u with e2 | s1 <;> simp [h0, hu, he]

/-- Claim C4: each of the four sub-resource getters performs at most one
upstream fetch, memoizes its result (a repeated evaluation returns the
same value and state with zero further fetches), and a failed fetch is
replaced by the empty/zero default instead of propagating. -/
theorem claim4_getter_memoization (env : UserClient) (s : AccessorState) :
    ((profileGet env s).2.2 ≤ 1 ∧
      profileGet env ((profileGet env s).2.1) =
        ((profileGet env s).1, (profileGet env s).2.1, 0) ∧
      (s.profile_data = none → ∀ e, env.fetchProfile = .error e →
        (profileGet env s).1 = [])) ∧
    ((presenceGet env s).2.2 ≤ 1 ∧
      presenceGet env ((presenceGet env s).2.1) =
        ((presenceGet env s).1, (presenceGet env s).2.1, 0) ∧
      (s.presence_data = none → ∀ e, env.fetchPresence = .error e →
        (presenceGet env s).1 = [])) ∧
    ((friendshipGet env s).2.2 ≤ 1 ∧
      friendshipGet env ((friendshipGet env s).2.1) =
        ((friendshipGet env s).1, (friendshipGet env s).2.1, 0) ∧
      (s.friendship_data = none → ∀ e, env.fetchFriendship = .error e →
        (friendshipGet env s).1 = [])) ∧
    ((trophySummaryGet env s).2.2 ≤ 1 ∧
      trophySummaryGet env ((trophySummaryGet env s).2.1) =
        ((trophySummaryGet env s).1, (trophySummaryGet env s).2.1, 0) ∧
      (s.trophy_summary_data = none → ∀ e, env.fetchTrophySummary = .error e →
        (trophySummaryGet env s).1 = none)) :=
  ⟨⟨(profileGet_state env s).2, profileGet_stable env s,
    fun h0 e he => profileGet_default env s h0 e he⟩,
   ⟨(presenceGet_state env s).2, presenceGet_stable env s,
    fun h0 e he => presenceGet_default env s h0 e he⟩,
   ⟨(friendshipGet_state env s).2, friendshipGet_stable env s,
    fun h0 e he => friendshipGet_default env s h0 e he⟩,
   ⟨(trophySummaryGet_state env s).2, trophySummaryGet_stable env s,
    fun h0 e he => trophySummaryGet_default env s h0 e he⟩⟩

theorem claim4_getter_memoization_holds :
    (profileGet envFail (initState "bob")).2.2 ≤ 1 ∧
    (profileGet envFail (initState "bob")).1 = [] ∧
    (presenceGet envFail (initState "bob")).1 = [] ∧
    (friendshipGet envFail (initState "bob")).1 = [] ∧
    (trophySummaryGet envFail (initState "bob")).1 = none :=
  ⟨(claim4_getter_memoization envFail (initState "bob")).1.1,
   (claim4_getter_memoization envFail (initState "bob")).1.2.2 rfl "boom" rfl,
   (claim4_getter_memoization envFail (initState "bob")).2.1.2.2 rfl "boom" rfl,
   (claim4_getter_memoization envFail (initState "bob")).2.2.1.2.2 rfl "boom" rfl,
   (claim4_getter_memoization envFail (initState "bob")).2.2.2.2.2 rfl "boom" rfl⟩

/-! ## The bounded LRU memoization (C6) -/

theorem lruFilter_length_lt {k : String} {l : List (String × Nat)} {v : Nat}
    (h : lruLookup k l = some v) :
    (l.filter (fun p => !(p.1 == k))).length < l.length := by
  induction l with
  | nil => simp [lruLookup] at h
  | cons hd tl ih =>
    rcases hd with ⟨k1, v1⟩
    by_cases hk : k1 == k
    · simp only [List.filter_cons, hk, Bool.not_true]
      exact Nat.lt_of_le_of_lt (List.length_filter_le _ _) (Nat.lt_succ_self _)
    · rw [lruLookup, if_neg hk] at h
      simp only [List.filter_cons, hk, Bool.not_false, List.length_cons]
      exact Nat.succ_lt_succ (ih h)

theorem lruLookup_head (k : String) (v : Nat) (rest : List (String × Nat)) :
    lruLookup k ((k, v) :: rest) = some v := by
  rw [lruLookup, if_pos (by simp)]

/-- Claim C6: the `get_psn_user` memoization never exceeds 100 entries, the
101st distinct identifier evicts exactly the least-recently-used entry, a
cached identifier keeps returning the very same accessor instance, and two
consecutive calls with the same identifier agree on the instance. -/
theorem claim6_lru_capacity_and_identity :
    (∀ k c, c.entries.length ≤ 100 →
      ((getPsnUser k c).2).entries.length ≤ 100) ∧
    (∀ k c, c.entries.length = 100 → lruLookup k c.entries = none →
      ((getPsnUser k c).2).entries = (k, c.nextId) :: c.entries.dropLast ∧
      ((getPsnUser k c).2).entries.length = 100) ∧
    (∀ k c v, lruLookup k c.entries = some v →
      (getPsnUser k c).1 = v ∧
      lruLookup k ((getPsnUser k c).2).entries = some v) ∧
    (∀ k c, (getPsnUser k ((getPsnUser k c).2)).1 = (getPsnUser k c).1) := by
  have hit : ∀ k c v, lruLookup k c.entries = some v →
      (getPsnUser k c).1 = v ∧
      lruLookup k ((getPsnUser k c).2).entries = some v := by
    intro k c v h
    unfold getPsnUser
    rw [h]
    exact ⟨rfl, lruLookup_head k v _⟩
  have missHead : ∀ k c, lruLookup k c.entries = none →
      (getPsnUser k c).1 = c.nextId ∧
      lruLookup k ((getPsnUser k c).2).entries = some c.nextId := by
    intro k c h
    unfold getPsnUser
    rw [h]
    refine ⟨rfl, ?_⟩
    dsimp only
    by_cases hlen : ((k, c.nextId) :: c.entries).length > 100
    · rw [if_pos hlen]
      rcases he : c.entries with _ | ⟨hd, tl⟩
      · rw [he] at hlen; simp at hlen
      · rw [List.dropLast_cons₂]
        exact lruLookup_head k c.nextId _
    · rw [if_neg hlen]
      exact lruLookup_head k c.nextId _
  refine ⟨?_, ?_, hit, ?_⟩
  · intro k c hc
    unfold getPsnUser
    rcases hl : lruLookup k c.entries with _ | v
    · dsimp only
      by_cases hlen : ((k, c.nextId) :: c.entries).length > 100
      · rw [if_pos hlen]
        simp only [List.length_dropLast, List.length_cons]
        omega
      · rw [if_neg hlen]
        simp only [List.length_cons] at hlen ⊢
        omega
    · dsimp only
      have := lruFilter_length_lt hl
      simp only [List.length_cons]
      omega
  · intro k c hc hl
    unfold getPsnUser
    rw [hl]
    dsimp only
    have hlen : ((k, c.nextId) :: c.entries).length > 100 := by
      simp only [List.length_cons, hc]; omega
    rw [if_pos hlen]
    rcases he : c.entries with _ | ⟨hd, tl⟩
    · rw [he] at hc; simp at hc
    · constructor
      · rw [List.dropLast_cons₂]
      · rw [List.dropLast_cons₂]
        simp only [List.length_cons, List.length_dropLast]
        rw [he] at hc
        simp only [List.length_cons] at hc
        omega
  · intro k c
    rcases hl : lruLookup k c.entries with _ | v
    · obtain ⟨h1, h2⟩ := missHead k c hl
      rw [(hit k _ _ h2).1, h1]
    · obtain ⟨h1, h2⟩ := hit k c v hl
      rw [(hit k _ _ h2).1, h1]

theorem claim6_lru_capacity_and_identity_holds :
    (getPsnUser "alice" { entries := [("alice", 7)], nextId := 8 }).1 = 7 ∧
    ((getPsnUser "bob" emptyCache).2).entries.length ≤ 100 :=
  ⟨(claim6_lru_capacity_and_identity.2.2.1 "alice"
      { entries := [("alice", 7)], nextId := 8 } 7 rfl).1,
   claim6_lru_capacity_and_identity.1 "bob" emptyCache (by simp [emptyCache])⟩

/-! ## The client handle (C7) -/

/-- Counterexample to claim C7: after the `PSNClient` singleton (client 0)
exists, two account lookups each construct a *fresh* `PSNAWP` client
(clients 1 and 2) directly from the environment — the `user` property
never goes through the shared handle, and three clients are constructed
in one process. -/
theorem claim7_counterexample :
    psnClientNew (some "token") initProc =
      .ok (0, { singleton := some 0, constructedClients := 1 }) ∧
    userFetchClient { singleton := some 0, constructedClients := 1 } =
      (1, { singleton := some 0, constructedClients := 2 }) ∧
    userFetchClient { singleton := some 0, constructedClients := 2 } =
      (2, { singleton := some 0, constructedClients := 3 }) ∧
    (1 : Nat) ≠ 0 ∧ (2 : Nat) ≠ 0 := by
  refine ⟨rfl, rfl, rfl, ?_, ?_⟩ <;> omega

/-- Claim C7 as amended: the `PSNClient` singleton is constructed at most
once per process and its construction raises when `NPSSO` is unset or
empty; but the account-lookup path (`user` property) builds a fresh
`PSNAWP` client on every uncached lookup, bypassing the shared handle, so
not every outbound call goes through the singleton. -/
theorem claim7_client_handle :
    (∀ npsso p c, p.singleton = some c → psnClientNew npsso p = .ok (c, p)) ∧
    (∀ npsso p, p.singleton = none → (npsso = none ∨ npsso = some "") →
      psnClientNew npsso p = .error "NPSSO environment variable must be set") ∧
    (∀ npsso p, p.singleton = none → ¬(npsso = none ∨ npsso = some "") →
      psnClientNew npsso p =
        .ok (p.constructedClients,
             { singleton := some p.constructedClients,
               constructedClients := p.constructedClients + 1 })) ∧
    (∀ p c, p.singleton = some c → c < p.constructedClients →
      (userFetchClient p).1 ≠ c ∧
      (userFetchClient p).2.constructedClients = p.constructedClients + 1 ∧
      (userFetchClient p).2.singleton = p.singleton) := by
  refine ⟨?_, ?_, ?_, ?_⟩
  · intro npsso p c h
    unfold psnClientNew
    rw [h]
  · intro npsso p h habs
    unfold psnClientNew
    rw [h, if_pos habs]
  · intro npsso p h habs
    unfold psnClientNew
    rw [h, if_neg habs]
  · intro p c h hc
    refine ⟨?_, rfl, rfl⟩
    unfold userFetchClient
    omega

theorem claim7_client_handle_holds :
    psnClientNew (some "tok") { singleton := some 5, constructedClients := 6 } =
      .ok (5, { singleton := some 5, constructedClients := 6 }) ∧
    psnClientNew none initProc = .error "NPSSO environment variable must be set" ∧
    (userFetchClient { singleton := some 5, constructedClients := 6 }).1 ≠ 5 :=
  ⟨claim7_client_handle.1 (some "tok") _ 5 rfl,
   claim7_client_handle.2.1 none initProc rfl (Or.inl rfl),
   (claim7_client_handle.2.2.2 { singleton := some 5, constructedClients := 6 } 5
      rfl (by decide)).1⟩

/-! ## Batch retrieval (C2) -/

theorem batchLoop_eq (world : String → UserClient) (reqs : List UserReq)
    (acc : List Value) :
    batchLoop world reqs acc = acc ++ reqs.map (perUserResult world) := by
  induction reqs generalizing acc with
  | nil => simp [batchLoop]
  | cons r rest ih =>
    rw [batchLoop, ih]
    simp

/-- Claim C2: a batch of N entries always answers 200 with exactly N
results in request order; the i-th result is a function of the i-th entry
alone — the (field-filtered) profile on success, the
`online_id`/`error` placeholder when that entry's lookup raised. -/
theorem claim2_batch_results (world : String → UserClient) (reqs : List UserReq) :
    (batchRoute world reqs).status = 200 ∧
    ∃ l, (batchRoute world reqs).body = .vlist l ∧
      l.length = reqs.length ∧
      (∀ i : Nat, l[i]? = (reqs[i]?).map (perUserResult world)) ∧
      (∀ r : UserReq, ∀ e,
        getFullProfile (world r.online_id) (initState r.online_id) = .error e →
        perUserResult world r =
          .vdict [("online_id", .vstr r.online_id),
                  ("error", .vstr "User not found")]) ∧
      (∀ r : UserReq, ∀ p s1,
        getFullProfile (world r.online_id) (initState r.online_id) = .ok (p, s1) →
        (r.fields = none → perUserResult world r = .vdict p) ∧
        (∀ fs, r.fields = some fs → perUserResult world r =
          if fs.isEmpty then .vdict p else .vdict (projectFields p fs))) := by
  refine ⟨rfl, reqs.map (perUserResult world), ?_, by simp, ?_, ?_, ?_⟩
  · show Value.vlist (batchLoop world reqs []) = _
    rw [batchLoop_eq]
    simp
  · intro i
    simp
  · intro r e h
    unfold perUserResult
    rw [h]
  · intro r p s1 h
    constructor
    · intro hf
      unfold perUserResult
      rw [h, hf]
    · intro fs hf
      unfold perUserResult
      rw [h, hf]

theorem claim2_batch_results_holds :
    (batchRoute batchWorld [⟨"alice", none⟩, ⟨"ghost", none⟩]).status = 200 ∧
    perUserResult batchWorld ⟨"ghost", none⟩ =
      .vdict [("online_id", .vstr "ghost"), ("error", .vstr "User not found")] := by
  obtain ⟨h200, l, _, _, _, hplaceholder, _⟩ :=
    claim2_batch_results batchWorld [⟨"alice", none⟩, ⟨"ghost", none⟩]
  exact ⟨h200, hplaceholder ⟨"ghost", none⟩ "boom" rfl⟩

/-! ## Exception-to-HTTP translation (C3, C9) -/

theorem getFullProfile_error (env : UserClient) (oid : String) (e : String)
    (h : env.fetchUser = .error e) :
    getFullProfile env (initState oid) = .error e := by
  simp [getFullProfile, assembleProfile, accountIdGet, userGet, initState, h]

theorem profileGet_initState_userError (env : UserClient) (oid : String)
    (e : String) (h : env.fetchUser = .error e) :
    (profileGet env (initState oid)).1 = [] := by
  simp [profileGet, userGet, initState, h]

theorem getTrophyTitlesM_userError (env : UserClient) (oid : String)
    (e : String) (h : env.fetchUser = .error e) :
    (getTrophyTitlesM env (initState oid)).1 = [] := by
  simp [getTrophyTitlesM, userGet, initState, h]

theorem getTitleStatsM_userError (env : UserClient) (oid : String)
    (e : String) (h : env.fetchUser = .error e) :
    (getTitleStatsM env (initState oid)).1 = [] := by
  simp [getTitleStatsM, userGet, initState, h]

/-- Counterexample to claim C3: at the search handler the account lookup
raises, yet the response is 200 with an empty list — not a 404 and with no
exception text in the body. -/
theorem claim3_counterexample :
    getFullProfile envFail (initState "ghost") = .error "boom" ∧
    searchUsersRoute envFail "ghost" none = { status := 200, body := .vlist [] } ∧
    (searchUsersRoute envFail "ghost" none).status ≠ 404 := by
  refine ⟨rfl, rfl, by decide⟩

/-- Claim C3 as amended: when the account lookup raises, only the five
profile-assembling handlers (`/users/\x7bid\x7d` and its `/basic`,
`/presence`, `/friends`, `/trophies` shortcuts) answer 404 with the
exception text embedded; the search handler answers 200 with `[]`, the
batch handler answers 200 with a placeholder that does not carry the
exception text, and `/raw-profile`, `/trophy-titles` and `/games` answer
200 with empty data because the accessor swallows the failure first. -/
theorem claim3_error_translation (env : UserClient) (oid e : String)
    (h : env.fetchUser = .error e) :
    getFullProfile env (initState oid) = .error e ∧
    (∀ fields, getUserProfileRoute env oid fields =
      err404 ("User not found: " ++ e)) ∧
    basicRoute env oid = err404 ("User not found: " ++ e) ∧
    presenceRoute env oid = err404 ("User not found: " ++ e) ∧
    friendsRoute env oid = err404 ("User not found: " ++ e) ∧
    trophiesRoute env oid = err404 ("User not found: " ++ e) ∧
    (∃ pre post, "User not found: " ++ e = pre ++ e ++ post) ∧
    (∀ fields, searchUsersRoute env oid fields =
      { status := 200, body := .vlist [] }) ∧
    (∀ fo, perUserResult (fun _ => env) ⟨oid, fo⟩ =
      .vdict [("online_id", .vstr oid), ("error", .vstr "User not found")]) ∧
    rawProfileRoute env oid = { status := 200, body := .vdict [] } ∧
    trophyTitlesRoute env oid =
      { status := 200,
        body := .vdict [("online_id", .vstr oid), ("total_titles", .vint 0),
                        ("titles", .vlist [])] } ∧
    gamesRoute env oid =
      { status := 200,
        body := .vdict [("online_id", .vstr oid), ("total_games", .vint 0),
                        ("games", .vlist [])] } := by
  have hfull := getFullProfile_error env oid e h
  refine ⟨hfull, ?_, ?_, ?_, ?_, ?_, ⟨"User not found: ", "", by simp⟩,
          ?_, ?_, ?_, ?_, ?_⟩
  · intro fields
    unfold getUserProfileRoute
    rw [hfull]
  · unfold basicRoute
    rw [hfull]
  · unfold presenceRoute
    rw [hfull]
  · unfold friendsRoute
    rw [hfull]
  · unfold trophiesRoute
    rw [hfull]
  · intro fields
    unfold searchUsersRoute
    rw [hfull]
  · intro fo
    unfold perUserResult
    rw [hfull]
  · unfold rawProfileRoute
    dsimp only
    rw [profileGet_initState_userError env oid e h]
  · unfold trophyTitlesRoute
    dsimp only
    rw [getTrophyTitlesM_userError env oid e h]
    rfl
  · unfold gamesRoute
    dsimp only
    rw [getTitleStatsM_userError env oid e h]
    rfl

theorem claim3_error_translation_holds :
    basicRoute envFail "ghost" = err404 ("User not found: " ++ "boom") ∧
    searchUsersRoute envFail "ghost" none =
      { status := 200, body := .vlist [] } :=
  ⟨(claim3_error_translation envFail "ghost" "boom" rfl).2.2.1,
   (claim3_error_translation envFail "ghost" "boom" rfl).2.2.2.2.2.2.2.1 none⟩

/-- Claim C9: an unknown identifier (account lookup raises) never makes
accessor construction or caching fail — `get_psn_user` is total — the
failure first surfaces during profile assembly, and `GET /users/\x7bid\x7d`
answers 404 with a body containing the substring "not found". -/
theorem claim9_unknown_user_404 (env : UserClient) (oid e : String)
    (h : env.fetchUser = .error e) :
    (∀ c : CacheState, ∃ v c1, getPsnUser oid c = (v, c1)) ∧
    getFullProfile env (initState oid) = .error e ∧
    getUserProfileRoute env oid none = err404 ("User not found: " ++ e) ∧
    (∃ pre post, "User not found: " ++ e = pre ++ "not found" ++ post) := by
  have hfull := getFullProfile_error env oid e h
  refine ⟨fun c => ⟨_, _, rfl⟩, hfull, ?_, ⟨"User ", ": " ++ e, ?_⟩⟩
  · unfold getUserProfileRoute
    rw [hfull]
  · rfl

theorem claim9_unknown_user_404_holds :
    getUserProfileRoute envFail "ghost" none =
      err404 ("User not found: " ++ "boom") ∧
    (∃ pre post, "User not found: " ++ "boom" = pre ++ "not found" ++ post) :=
  ⟨(claim9_unknown_user_404 envFail "ghost" "boom" rfl).2.2.1,
   (claim9_unknown_user_404 envFail "ghost" "boom" rfl).2.2.2⟩

/-! ## Pass-through title endpoints (C8) -/

theorem titleLoop_eq (ts : List (Except String TitleData)) (acc : List Value) :
    titleLoop ts acc = acc ++ ts.filterMap (fun t => (projectTitle t).toOption) := by
  induction ts generalizing acc with
  | nil => simp [titleLoop]
  | cons t rest ih =>
    rw [titleLoop]
    rcases hp : projectTitle t with e | v <;>
      simp [ih, hp, Except.toOption]

theorem gameLoop_eq (ts : List (Except String GameData)) (acc : List Value) :
    gameLoop ts acc = acc ++ ts.filterMap (fun t => (projectGame t).toOption) := by
  induction ts generalizing acc with
  | nil => simp [gameLoop]
  | cons t rest ih =>
    rw [gameLoop]
    rcases hp : projectGame t with e | v <;>
      simp [ih, hp, Except.toOption]

/-- Claim C8: for any iterable the upstream library returns, the
trophy-titles and games endpoints answer with exactly the projections of
the records that do not raise, in iteration order (a raising record is
skipped without affecting the rest), and the reported total equals the
length of the returned list. -/
theorem claim8_title_passthrough (env : UserClient) (oid : String)
    (hu : env.fetchUser = .ok ()) :
    (∀ ts, env.fetchTrophyTitles = .ok ts →
      trophyTitlesRoute env oid =
        { status := 200,
          body := .vdict [("online_id", .vstr oid),
            ("total_titles",
             .vint (ts.filterMap (fun t => (projectTitle t).toOption)).length),
            ("titles",
             .vlist (ts.filterMap (fun t => (projectTitle t).toOption)))] }) ∧
    (∀ gs, env.fetchTitleStats = .ok gs →
      gamesRoute env oid =
        { status := 200,
          body := .vdict [("online_id", .vstr oid),
            ("total_games",
             .vint (gs.filterMap (fun t => (projectGame t).toOption)).length),
            ("games",
             .vlist (gs.filterMap (fun t => (projectGame t).toOption)))] }) := by
  constructor
  · intro ts hts
    have hm : (getTrophyTitlesM env (initState oid)).1 = ts := by
      simp [getTrophyTitlesM, userGet, initState, hu, hts]
    unfold trophyTitlesRoute
    dsimp only
    rw [hm, titleLoop_eq]
    simp
  · intro gs hgs
    have hm : (getTitleStatsM env (initState oid)).1 = gs := by
      simp [getTitleStatsM, userGet, initState, hu, hgs]
    unfold gamesRoute
    dsimp only
    rw [hm, gameLoop_eq]
    simp

theorem claim8_title_passthrough_holds :
    trophyTitlesRoute envTitles "alice" =
      { status := 200,
        body := .vdict [("online_id", .vstr "alice"),
          ("total_titles",
           .vint (titleSample.filterMap (fun t => (projectTitle t).toOption)).length),
          ("titles",
           .vlist (titleSample.filterMap (fun t => (projectTitle t).toOption)))] } ∧
    gamesRoute envTitles "alice" =
      { status := 200,
        body := .vdict [("online_id", .vstr "alice"),
          ("total_games", .vint 0), ("games", .vlist [])] } := by
  have h := claim8_title_passthrough envTitles "alice" rfl
  exact ⟨h.1 titleSample rfl, h.2 [.error "bad record"] rfl⟩

/-! ## Association-list lemmas for the field projections (C5, C10) -/

theorem dLookup_none_of_not_mem_keys {d : List (String × Value)} {k : String}
    (h : k ∉ d.map Prod.fst) : dLookup d k = none := by
  induction d with
  | nil => rfl
  | cons hd tl ih =>
    rcases hd with ⟨k1, v1⟩
    simp only [List.map_cons, List.mem_cons, not_or] at h
    rw [dLookup, if_neg (fun hbeq => h.1 (beq_iff_eq.mp hbeq).symm)]
    exact ih h.2

theorem dLookup_isSome_of_mem_keys {d : List (String × Value)} {k : String}
    (h : k ∈ d.map Prod.fst) : (dLookup d k).isSome := by
  induction d with
  | nil => simp at h
  | cons hd tl ih =>
    rcases hd with ⟨k1, v1⟩
    by_cases hk : k1 == k
    · rw [dLookup, if_pos hk]
      rfl
    · rw [dLookup, if_neg hk]
      simp only [List.map_cons, List.mem_cons] at h
      rcases h with h | h
      · exact absurd (beq_iff_eq.mpr h.symm) hk
      · exact ih h

theorem keys_filter_sub {d : List (String × Value)} {f : String × Value → Bool}
    {k : String} (h : k ∈ (d.filter f).map Prod.fst) : k ∈ d.map Prod.fst := by
  obtain ⟨kv, hmem, rfl⟩ := List.mem_map.mp h
  exact List.mem_map.mpr ⟨kv, (List.mem_filter.mp hmem).1, rfl⟩

/-- Looking up a unique key through the truthiness filter: the entry
survives iff the filter keeps its value. -/
theorem dLookup_filter {a : List (String × Value)} {k : String} {v : Value}
    (hnd : (a.map Prod.fst).Nodup) (h : dLookup a k = some v)
    (f : String × Value → Bool) :
    dLookup (a.filter f) k = if f (k, v) then some v else none := by
  induction a with
  | nil => simp [dLookup] at h
  | cons hd tl ih =>
    rcases hd with ⟨k0, v0⟩
    simp only [List.map_cons, List.nodup_cons] at hnd
    by_cases hk : (k0 == k) = true
    · rw [dLookup, if_pos hk] at h
      obtain rfl : v0 = v := by injection h
      obtain rfl : k0 = k := beq_iff_eq.mp hk
      have hne : k0 ∉ (tl.filter f).map Prod.fst :=
        fun hmem => hnd.1 (keys_filter_sub hmem)
      by_cases hf : f (k0, v0) = true
      · rw [List.filter_cons, if_pos hf, if_pos hf, dLookup, if_pos hk]
      · rw [List.filter_cons, if_neg hf, if_neg hf]
        exact dLookup_none_of_not_mem_keys hne
    · rw [dLookup, if_neg hk] at h
      by_cases hf : f (k0, v0) = true
      · rw [List.filter_cons, if_pos hf, dLookup, if_neg hk]
        exact ih hnd.2 h
      · rw [List.filter_cons, if_neg hf]
        exact ih hnd.2 h

theorem keys_dInsert {d : List (String × Value)} {k0 k : String} {v : Value}
    (h : k ∈ (dInsert d k0 v).map Prod.fst) :
    k = k0 ∨ k ∈ d.map Prod.fst := by
  unfold dInsert at h
  by_cases hany : d.any (fun p => p.1 == k0)
  · rw [if_pos hany] at h
    obtain ⟨kv, hmem, hk⟩ := List.mem_map.mp h
    obtain ⟨p, hp, rfl⟩ := List.mem_map.mp hmem
    by_cases hpk : p.1 == k0
    · rw [if_pos hpk] at hk
      exact Or.inl hk.symm
    · rw [if_neg hpk] at hk
      exact Or.inr (List.mem_map.mpr ⟨p, hp, hk⟩)
  · rw [if_neg hany] at h
    simp only [List.map_append, List.mem_append, List.map_cons, List.map_nil,
      List.mem_singleton] at h
    rcases h with h | h
    · exact Or.inr h
    · exact Or.inl h

theorem keys_foldl_dInsert (pairs : List (String × Value)) :
    ∀ acc k, k ∈ ((pairs.foldl (fun d kv => dInsert d kv.1 kv.2) acc).map Prod.fst) →
      k ∈ acc.map Prod.fst ∨ k ∈ pairs.map Prod.fst := by
  induction pairs with
  | nil => intro acc k h; exact Or.inl h
  | cons hd tl ih =>
    intro acc k h
    rw [List.foldl_cons] at h
    rcases ih (dInsert acc hd.1 hd.2) k h with h2 | h2
    · rcases keys_dInsert h2 with h3 | h3
      · exact Or.inr (by simp [h3])
      · exact Or.inl h3
    · exact Or.inr (by simp [h2])

theorem keys_pyDictOf {pairs : List (String × Value)} {k : String}
    (h : k ∈ (pyDictOf pairs).map Prod.fst) : k ∈ pairs.map Prod.fst := by
  rcases keys_foldl_dInsert pairs [] k h with h2 | h2
  · simp at h2
  · exact h2

theorem keys_projectFields {p : List (String × Value)} {fs : List String}
    {k : String} (h : k ∈ (projectFields p fs).map Prod.fst) :
    AVAILABLE_USER_FIELDS.contains k = true ∧ dMem p k = true := by
  unfold projectFields at h
  have h2 := keys_pyDictOf h
  simp only [List.map_map] at h2
  obtain ⟨k2, hmem, rfl⟩ := List.mem_map.mp h2
  obtain ⟨hvalid, hmemp⟩ := List.mem_filter.mp hmem
  exact ⟨(List.mem_filter.mp hvalid).2, hmemp⟩

/-! ## Shape of the assembled profile (C5, C10) -/

theorem getTrophyLevel_shape (env : UserClient) (st : AccessorState) :
    ∃ n : Int, (getTrophyLevel env st).1 = .vint n := by
  unfold getTrophyLevel
  dsimp only
  rcases h : (trophySummaryGet env st).1 with _ | t
  · exact ⟨0, rfl⟩
  · exact ⟨t.trophy_level, rfl⟩

theorem getTrophyProgress_shape (env : UserClient) (st : AccessorState) :
    ∃ n : Int, (getTrophyProgress env st).1 = .vint n := by
  unfold getTrophyProgress
  dsimp only
  rcases h : (trophySummaryGet env st).1 with _ | t
  · exact ⟨0, rfl⟩
  · exact ⟨t.progress, rfl⟩

theorem getEarnedTrophies_shape (env : UserClient) (st : AccessorState) :
    ∃ d, (getEarnedTrophies env st).1 = .vdict d ∧ d ≠ [] := by
  unfold getEarnedTrophies
  dsimp only
  rcases h : (trophySummaryGet env st).1 with _ | t
  · exact ⟨_, rfl, by simp⟩
  · exact ⟨_, rfl, by simp⟩

theorem vint_lookup_of_trophyLevel {a : List (String × Value)} {k : String}
    {env : UserClient} {st : AccessorState}
    (hl : dLookup a k = some ((getTrophyLevel env st).1)) :
    ∃ n : Int, dLookup a k = some (.vint n) := by
  obtain ⟨n, hn⟩ := getTrophyLevel_shape env st
  exact ⟨n, by rw [hl, hn]⟩

theorem vint_lookup_of_trophyProgress {a : List (String × Value)} {k : String}
    {env : UserClient} {st : AccessorState}
    (hl : dLookup a k = some ((getTrophyProgress env st).1)) :
    ∃ n : Int, dLookup a k = some (.vint n) := by
  obtain ⟨n, hn⟩ := getTrophyProgress_shape env st
  exact ⟨n, by rw [hl, hn]⟩

theorem vdict_lookup_of_earned {a : List (String × Value)} {k : String}
    {env : UserClient} {st : AccessorState}
    (hl : dLookup a k = some ((getEarnedTrophies env st).1)) :
    ∃ d, dLookup a k = some (.vdict d) ∧ d ≠ [] := by
  obtain ⟨d, hd, hne⟩ := getEarnedTrophies_shape env st
  exact ⟨d, by rw [hl, hd], hne⟩

/-- Everything the route layer needs to know about the assembled (pre-
filter) profile dict: its key list is fixed, `online_id` carries the
accessor's id, and the three trophy entries are integers resp. a
non-empty dict of the four rank counts. -/
theorem assembleProfile_spec (env : UserClient) (s : AccessorState)
    (a : List (String × Value)) (s1 : AccessorState)
    (h : assembleProfile env s = .ok (a, s1)) :
    a.map Prod.fst = profileKeyOrder ∧
    dLookup a "online_id" = some (.vstr s.online_id) ∧
    (∃ n : Int, dLookup a "trophy_level" = some (.vint n)) ∧
    (∃ n : Int, dLookup a "trophy_progress" = some (.vint n)) ∧
    (∃ d, dLookup a "earned_trophies" = some (.vdict d) ∧ d ≠ []) := by
  unfold assembleProfile at h
  rcases hacc : accountIdGet env s with e | q <;> rw [hacc] at h
  · cases h
  · rcases q with ⟨acct, s2⟩
    dsimp only at h
    rw [Except.ok.injEq, Prod.mk.injEq] at h
    obtain ⟨ha, hs⟩ := h
    subst ha
    exact ⟨rfl, rfl, vint_lookup_of_trophyLevel rfl,
           vint_lookup_of_trophyProgress rfl, vdict_lookup_of_earned rfl⟩

theorem profileKeyOrder_allowed :
    ∀ k ∈ profileKeyOrder, AVAILABLE_USER_FIELDS.contains k = true := by
  decide

theorem profileKeyOrder_nodup : profileKeyOrder.Nodup := by
  decide

/-- Claim C5: whatever the requested fields (including unknown names), the
single-user endpoint answers 200 with a mapping whose keys all belong to
the fixed allow-list and to the full profile. -/
theorem claim5_requested_fields_subset (env : UserClient) (oid : String)
    (fields : Option (List String)) (p : List (String × Value))
    (s1 : AccessorState)
    (h : getFullProfile env (initState oid) = .ok (p, s1)) :
    (getUserProfileRoute env oid fields).status = 200 ∧
    ∃ d, (getUserProfileRoute env oid fields).body = .vdict d ∧
      ∀ k ∈ d.map Prod.fst,
        AVAILABLE_USER_FIELDS.contains k = true ∧ dMem p k = true := by
  have hVal : ∀ k ∈ p.map Prod.fst, AVAILABLE_USER_FIELDS.contains k = true := by
    unfold getFullProfile at h
    rcases hma : assembleProfile env (initState oid) with e | q <;> rw [hma] at h
    · cases h
    · rcases q with ⟨a, s2⟩
      rw [Except.ok.injEq, Prod.mk.injEq] at h
      obtain ⟨hp, _⟩ := h
      subst hp
      intro k hk
      have hmem := keys_filter_sub hk
      rw [(assembleProfile_spec env _ a s2 hma).1] at hmem
      exact profileKeyOrder_allowed k hmem
  have hMemP : ∀ k ∈ p.map Prod.fst, dMem p k = true :=
    fun k hk => dLookup_isSome_of_mem_keys hk
  unfold getUserProfileRoute
  rw [h]
  rcases fields with _ | fs
  · exact ⟨rfl, p, rfl, fun k hk => ⟨hVal k hk, hMemP k hk⟩⟩
  · dsimp only
    by_cases he : fs.isEmpty = true
    · rw [if_pos he]
      exact ⟨rfl, p, rfl, fun k hk => ⟨hVal k hk, hMemP k hk⟩⟩
    · rw [if_neg he]
      exact ⟨rfl, projectFields p fs, rfl, fun k hk => keys_projectFields hk⟩

theorem claim5_requested_fields_subset_holds :
    ∃ p s1,
      getFullProfile envA (initState "alice") = .ok (p, s1) ∧
      (getUserProfileRoute envA "alice" (some ["about_me", "bogus"])).status = 200 ∧
      ∃ d, (getUserProfileRoute envA "alice" (some ["about_me", "bogus"])).body = .vdict d ∧
        ∀ k ∈ d.map Prod.fst,
          AVAILABLE_USER_FIELDS.contains k = true ∧ dMem p k = true := by
  obtain ⟨a, s1, ha⟩ := assembleProfile_ok envA (initState "alice") rfl
  have hf : getFullProfile envA (initState "alice") =
      .ok (a.filter (fun kv => keepValue kv.2), s1) := by
    unfold getFullProfile
    rw [ha]
  exact ⟨_, _, hf,
    (claim5_requested_fields_subset envA "alice" (some ["about_me", "bogus"]) _ _ hf).1,
    (claim5_requested_fields_subset envA "alice" (some ["about_me", "bogus"]) _ _ hf).2⟩

/-! ## Shortcut endpoints and stripped keys (C10) -/

theorem buildBasic_err {p : List (String × Value)}
    (h : dLookup p "about_me" = none ∨ dLookup p "avatars" = none) :
    ∃ e, buildBasic p = .error e := by
  unfold buildBasic dIndex
  rcases h1 : dLookup p "online_id" with _ | v1
  · exact ⟨_, rfl⟩
  rcases h2 : dLookup p "about_me" with _ | v2
  · exact ⟨_, rfl⟩
  rcases h3 : dLookup p "avatars" with _ | v3
  · exact ⟨_, rfl⟩
  rcases h with hc | hc
  · simp [h2] at hc
  · simp [h3] at hc

theorem buildPresence_err {p : List (String × Value)}
    (h : dLookup p "online_status" = none ∨ dLookup p "platform" = none ∨
         dLookup p "last_online" = none ∨ dLookup p "availability" = none) :
    ∃ e, buildPresence p = .error e := by
  unfold buildPresence dIndex
  rcases h1 : dLookup p "online_id" with _ | v1
  · exact ⟨_, rfl⟩
  rcases h2 : dLookup p "online_status" with _ | v2
  · exact ⟨_, rfl⟩
  rcases h3 : dLookup p "platform" with _ | v3
  · exact ⟨_, rfl⟩
  rcases h4 : dLookup p "last_online" with _ | v4
  · exact ⟨_, rfl⟩
  rcases h5 : dLookup p "availability" with _ | v5
  · exact ⟨_, rfl⟩
  rcases h with hc | hc | hc | hc
  · simp [h2] at hc
  · simp [h3] at hc
  · simp [h4] at hc
  · simp [h5] at hc

theorem buildFriends_err {p : List (String × Value)}
    (h : dLookup p "friend_relation" = none) :
    ∃ e, buildFriends p = .error e := by
  unfold buildFriends dIndex
  rcases h1 : dLookup p "online_id" with _ | v1
  · exact ⟨_, rfl⟩
  rcases h2 : dLookup p "friends_count" with _ | v2
  · exact ⟨_, rfl⟩
  rcases h3 : dLookup p "mutual_friends_count" with _ | v3
  · exact ⟨_, rfl⟩
  rcases h4 : dLookup p "friend_relation" with _ | v4
  · exact ⟨_, rfl⟩
  simp [h4] at h

theorem buildTrophies_ok {p : List (String × Value)} {v1 v2 v3 v5 : Value}
    (h1 : dLookup p "online_id" = some v1)
    (h2 : dLookup p "trophy_level" = some v2)
    (h3 : dLookup p "trophy_progress" = some v3)
    (h5 : dLookup p "earned_trophies" = some v5) :
    buildTrophies p =
      .ok (.vdict [("online_id", v1), ("trophy_level", v2),
                   ("trophy_progress", v3),
                   ("trophy_tier", dGetD p "trophy_tier" (.vint 0)),
                   ("earned_trophies", v5)]) := by
  unfold buildTrophies dIndex
  rw [h1, h2, h3, h5]

/-- Claim C10: for an existing user, a listed string/list field that is
empty is stripped from the full profile, so the matching shortcut endpoint
(`/basic`, `/presence`, `/friends`) hits a `KeyError` and answers 404
"User not found"; `/trophies` cannot fail this way since its integer
fields and the non-empty earned-trophies dict survive the filter and
`trophy_tier` is read with a default. -/
theorem claim10_shortcut_key_errors (env : UserClient) (oid : String)
    (a : List (String × Value)) (s1 : AccessorState)
    (hma : assembleProfile env (initState oid) = .ok (a, s1))
    (hoid : oid ≠ "") :
    ((dLookup a "about_me" = some (.vstr "") ∨
      dLookup a "avatars" = some (.vlist [])) →
      ∃ e, basicRoute env oid = err404 ("User not found: " ++ e)) ∧
    ((dLookup a "online_status" = some (.vstr "") ∨
      dLookup a "platform" = some (.vstr "") ∨
      dLookup a "last_online" = some (.vstr "") ∨
      dLookup a "availability" = some (.vstr "")) →
      ∃ e, presenceRoute env oid = err404 ("User not found: " ++ e)) ∧
    (dLookup a "friend_relation" = some (.vstr "") →
      ∃ e, friendsRoute env oid = err404 ("User not found: " ++ e)) ∧
    (trophiesRoute env oid).status = 200 := by
  obtain ⟨hkeys, honid, ⟨n2, hlvl⟩, ⟨n3, hprg⟩, ⟨ed, hearn, hedne⟩⟩ :=
    assembleProfile_spec env (initState oid) a s1 hma
  simp only [initState] at honid
  have hnd : (a.map Prod.fst).Nodup := by
    rw [hkeys]; exact profileKeyOrder_nodup
  have hfull : getFullProfile env (initState oid) =
      .ok (a.filter (fun kv => keepValue kv.2), s1) := by
    unfold getFullProfile
    rw [hma]
  have hpon : dLookup (a.filter (fun kv => keepValue kv.2)) "online_id" =
      some (.vstr oid) := by
    have h2 := dLookup_filter hnd honid (fun kv => keepValue kv.2)
    dsimp only at h2
    rw [if_pos (keepValue_vstr oid hoid)] at h2
    exact h2
  have hdropS : ∀ F : String, dLookup a F = some (.vstr "") →
      dLookup (a.filter (fun kv => keepValue kv.2)) F = none := by
    intro F hF
    have h2 := dLookup_filter hnd hF (fun kv => keepValue kv.2)
    dsimp only at h2
    rw [if_neg (by decide)] at h2
    exact h2
  refine ⟨?_, ?_, ?_, ?_⟩
  · intro hdisj
    have hb : ∃ e, buildBasic (a.filter (fun kv => keepValue kv.2)) = .error e := by
      apply buildBasic_err
      rcases hdisj with hF | hF
      · exact Or.inl (hdropS _ hF)
      · refine Or.inr ?_
        have h2 := dLookup_filter hnd hF (fun kv => keepValue kv.2)
        dsimp only at h2
        rw [if_neg (by decide)] at h2
        exact h2
    obtain ⟨e, he⟩ := hb
    refine ⟨e, ?_⟩
    unfold basicRoute
    rw [hfull]
    dsimp only
    rw [he]
  · intro hdisj
    have hb : ∃ e, buildPresence (a.filter (fun kv => keepValue kv.2)) = .error e := by
      apply buildPresence_err
      rcases hdisj with hF | hF | hF | hF
      · exact Or.inl (hdropS _ hF)
      · exact Or.inr (Or.inl (hdropS _ hF))
      · exact Or.inr (Or.inr (Or.inl (hdropS _ hF)))
      · exact Or.inr (Or.inr (Or.inr (hdropS _ hF)))
    obtain ⟨e, he⟩ := hb
    refine ⟨e, ?_⟩
    unfold presenceRoute
    rw [hfull]
    dsimp only
    rw [he]
  · intro hF
    obtain ⟨e, he⟩ := buildFriends_err (hdropS _ hF)
    refine ⟨e, ?_⟩
    unfold friendsRoute
    rw [hfull]
    dsimp only
    rw [he]
  · have hplvl : dLookup (a.filter (fun kv => keepValue kv.2)) "trophy_level" =
        some (.vint n2) := by
      have h2 := dLookup_filter hnd hlvl (fun kv => keepValue kv.2)
      dsimp only at h2
      rw [if_pos (keepValue_vint n2)] at h2
      exact h2
    have hpprg : dLookup (a.filter (fun kv => keepValue kv.2)) "trophy_progress" =
        some (.vint n3) := by
      have h2 := dLookup_filter hnd hprg (fun kv => keepValue kv.2)
      dsimp only at h2
      rw [if_pos (keepValue_vint n3)] at h2
      exact h2
    have hpearn : dLookup (a.filter (fun kv => keepValue kv.2)) "earned_trophies" =
        some (.vdict ed) := by
      have h2 := dLookup_filter hnd hearn (fun kv => keepValue kv.2)
      dsimp only at h2
      rw [if_pos (keepValue_vdict_ne ed hedne)] at h2
      exact h2
    have hb := buildTrophies_ok hpon hplvl hpprg hpearn
    unfold trophiesRoute
    rw [hfull]
    dsimp only
    rw [hb]

theorem claim10_shortcut_key_errors_holds :
    (∃ e, basicRoute envEmpty "carol" = err404 ("User not found: " ++ e)) ∧
    (∃ e, presenceRoute envEmpty "carol" = err404 ("User not found: " ++ e)) ∧
    (∃ e, friendsRoute envEmpty "carol" = err404 ("User not found: " ++ e)) ∧
    (trophiesRoute envEmpty "carol").status = 200 := by
  have h := claim10_shortcut_key_errors envEmpty "carol" emptyAssembled
    { online_id := "carol", userFetched := true, account_id := some "acct-3",
      profile_data := some [], presence_data := some [],
      friendship_data := some [], trophy_summary_data := some none }
    rfl (by decide)
  exact ⟨h.1 (Or.inl rfl), h.2.1 (Or.inl rfl), h.2.2.1 rfl, h.2.2.2⟩

end PsnApi
